import Mathlib

/-!
# ThreeGPStart renderer: embedding of `Renderer.cpp`

The renderer drives two kinds of collaborators: the OpenGL context and the
`Helpers` library (shader compilation, linking, model loading, error check).
Every call the renderer makes is appended to a trace, and the OpenGL calls
also act on a model of the context state (object names, bindings, buffer
contents, vertex-array state).  Outcomes of the `Helpers` calls are taken from
an environment, so that a statement quantified over the environment speaks of
every outcome of the collaborators.

Float arithmetic is never evaluated: float data is carried as exact values and
the `glm` computations of `Render` are recorded as expression trees.
-/

set_option autoImplicit false

namespace ThreeGP

/-! ## Data -/

/-- A float datum (a mesh coordinate, a camera component, a literal such as
`45.0f`), carried as the exact value it denotes. -/
abbrev GLfloat := ℚ

/-- The source's `glm::vec3`: three floats. -/
structure vec3 where
  x : GLfloat
  y : GLfloat
  z : GLfloat
deriving DecidableEq

/-- Modelled from the spec: the declaration of `Helpers::Mesh` is not among the
sources.  A mesh is a sequence of 3D positions, a parallel sequence of 3D
normals and a sequence of unsigned triangle indices; these are the three
members `InitialiseGeometry` reads (`vertices`, `normals`, `elements`). -/
structure Mesh where
  vertices : List vec3
  normals : List vec3
  elements : List Nat
deriving DecidableEq

/-- Modelled from the spec: the declaration of `Helpers::Camera` is not among
the sources.  A camera exposes a position, a look vector and an up vector;
these are the three getters `Render` calls. -/
structure Camera where
  GetPosition : vec3
  GetLookVector : vec3
  GetUpVector : vec3
deriving DecidableEq

/-- A scalar float expression as `Render` builds it. -/
inductive FloatExpr where
  | lit (v : GLfloat)
  | ofInt (i : Int)
  | div (a b : FloatExpr)
  | radians (a : FloatExpr)
deriving DecidableEq

/-- A `glm::vec3` expression: a value or the sum of two vectors. -/
inductive Vec3Expr where
  | val (v : vec3)
  | add (a b : Vec3Expr)
deriving DecidableEq

/-- A `glm::mat4` expression.  `diag s` is `glm::mat4(s)`, the matrix with `s`
on the diagonal and zero elsewhere (the identity for `s = 1`); `perspective`
and `lookAt` are the `glm` functions of those names; `mul a b` is `a * b`. -/
inductive Mat4Expr where
  | diag (s : FloatExpr)
  | perspective (fovy aspect near far : FloatExpr)
  | lookAt (eye center up : Vec3Expr)
  | mul (a b : Mat4Expr)
deriving DecidableEq

inductive ShaderType where
  | GL_VERTEX_SHADER
  | GL_FRAGMENT_SHADER
deriving DecidableEq

inductive BufferTarget where
  | GL_ARRAY_BUFFER
  | GL_ELEMENT_ARRAY_BUFFER
deriving DecidableEq

inductive Usage where
  | GL_STATIC_DRAW
deriving DecidableEq

inductive DataType where
  | GL_FLOAT
  | GL_UNSIGNED_INT
deriving DecidableEq

inductive Capability where
  | GL_DEPTH_TEST
  | GL_CULL_FACE
deriving DecidableEq

inductive Face where
  | GL_FRONT_AND_BACK
deriving DecidableEq

inductive PolygonMode where
  | GL_LINE
  | GL_FILL
deriving DecidableEq

inductive DrawMode where
  | GL_TRIANGLES
deriving DecidableEq

/-- What a buffer object stores: nothing yet, a `vec3` array or an unsigned
int array. -/
inductive BufferData where
  | empty
  | floats3 (vs : List vec3)
  | uints (es : List Nat)
deriving DecidableEq

/-- One call made by the renderer, with its arguments and, for a call that
returns something, the value returned. -/
inductive Call where
  | glCreateProgram (result : Nat)
  | LoadAndCompileShader (type : ShaderType) (path : String) (result : Nat)
  | glAttachShader (program shader : Nat)
  | glDeleteShader (shader : Nat)
  | LinkProgramShaders (program : Nat) (result : Bool)
  | CheckForGLError (result : Bool)
  | LoadFromFile (path : String) (result : Bool)
  | glGenBuffers (result : Nat)
  | glBindBuffer (target : BufferTarget) (buffer : Nat)
  | glBufferData (target : BufferTarget) (size : Nat) (data : BufferData) (usage : Usage)
  | glGenVertexArrays (result : Nat)
  | glBindVertexArray (array : Nat)
  | glEnableVertexAttribArray (index : Nat)
  | glVertexAttribPointer (index size : Nat) (type : DataType) (normalized : Bool)
      (stride offset : Nat)
  | glEnable (cap : Capability)
  | glPolygonMode (face : Face) (mode : PolygonMode)
  | glClearColor (red green blue alpha : GLfloat)
  | glClear (colorBit depthBit : Bool)
  | glGetIntegerv_GL_VIEWPORT (x y width height : Int)
  | glUseProgram (program : Nat)
  | glGetUniformLocation (program : Nat) (name : String) (result : Int)
  | glUniformMatrix4fv (location : Int) (count : Nat) (transpose : Bool) (value : Mat4Expr)
  | glDrawElements (mode : DrawMode) (count : Int) (type : DataType) (offset : Nat)
  | glDeleteProgram (program : Nat)
  | glDeleteBuffers (buffer : Nat)
  | glDeleteVertexArrays (array : Nat)
deriving DecidableEq

/-! ## Integer conversions -/

/-- Conversion of an unsigned value to a 32-bit unsigned integer (`GLuint`):
the value modulo 2^32. -/
def narrowToGLuint (n : Nat) : Nat :=
  n % 4294967296

/-- Conversion of an unsigned value to a signed 32-bit integer (`GLsizei`):
the value modulo 2^32, read as two's complement, so that 2^31 and above come
out negative. -/
def narrowToGLsizei (n : Nat) : Int :=
  if n % 4294967296 < 2147483648 then ((n % 4294967296 : Nat) : Int)
  else ((n % 4294967296 : Nat) : Int) - 4294967296

/-! ## The OpenGL context -/

/-- State of one generic vertex attribute of a vertex array object. -/
structure VertexAttrib where
  enabled : Bool
  buffer : Nat
  size : Nat
  type : DataType
  normalized : Bool
  stride : Nat
  offset : Nat
deriving DecidableEq

/-- State of a vertex array object: whether the name is in use, its attribute
slots and its element-array buffer binding. -/
structure VertexArrayObject where
  live : Bool
  attribs : Nat → VertexAttrib
  elementBuffer : Nat

/-- Initial state of an attribute slot. -/
def VertexAttrib.initial : VertexAttrib :=
  { enabled := false, buffer := 0, size := 4, type := .GL_FLOAT, normalized := false,
    stride := 0, offset := 0 }

/-- A vertex array object as `glGenVertexArrays` hands it out. -/
def VertexArrayObject.fresh : VertexArrayObject :=
  { live := true, attribs := fun _ => VertexAttrib.initial, elementBuffer := 0 }

/-- The part of the OpenGL context the renderer acts on.  Programs, buffers and
vertex arrays have separate name spaces; each `...Count` is the number of names
handed out so far, and the next name handed out is the count plus one, so that
a generated name is never 0 and never one generated before.  Vertex array 0 is
the default object, which records bindings made while no generated array is
bound. -/
structure GLState where
  programCount : Nat
  programs : Nat → Bool
  currentProgram : Nat
  bufferCount : Nat
  buffers : Nat → Option BufferData
  arrayBuffer : Nat
  arrayCount : Nat
  arrays : Nat → VertexArrayObject
  vertexArray : Nat
  depthTest : Bool
  cullFace : Bool
  polygonMode : PolygonMode
  clearColor : GLfloat × GLfloat × GLfloat × GLfloat
  viewport : Int × Int × Int × Int

/-- The context together with the trace of calls made so far and the number of
`Helpers::CheckForGLError` calls made so far. -/
structure World where
  gl : GLState
  trace : List Call
  checks : Nat

/-- Modelled from the spec: the `Helpers` functions are not among the sources.
The environment gives their outcomes: a stage compilation returns a handle or
0, linking and the model loader report success or failure, the error check
returns true if an error occurred (`CheckForGLError n` is the result of the
check made after `n` earlier ones).  It also gives the outcome of the
uniform-location query, which depends on the linked program. -/
structure Env where
  LoadAndCompileShader : ShaderType → String → Nat
  LinkProgramShaders : Nat → Bool
  CheckForGLError : Nat → Bool
  LoadFromFile : String → Option (List Mesh)
  glGetUniformLocation : Nat → String → Int

/-- The calls made between world `w` and a later world `w2`. -/
def callsSince (w w2 : World) : List Call :=
  w2.trace.drop w.trace.length

/-- Replace entry `k` of a table. -/
def setAt {α : Type} (f : Nat → α) (k : Nat) (v : α) : Nat → α :=
  fun i => if i = k then v else f i

def glCreateProgram (w : World) : Nat × World :=
  (w.gl.programCount + 1,
   { w with
     gl := { w.gl with programCount := w.gl.programCount + 1,
                       programs := setAt w.gl.programs (w.gl.programCount + 1) true },
     trace := w.trace ++ [Call.glCreateProgram (w.gl.programCount + 1)] })

def glAttachShader (program shader : Nat) (w : World) : World :=
  { w with trace := w.trace ++ [Call.glAttachShader program shader] }

def glDeleteShader (shader : Nat) (w : World) : World :=
  { w with trace := w.trace ++ [Call.glDeleteShader shader] }

def glDeleteProgram (program : Nat) (w : World) : World :=
  { w with
    gl := { w.gl with programs := setAt w.gl.programs program false },
    trace := w.trace ++ [Call.glDeleteProgram program] }

def glUseProgram (program : Nat) (w : World) : World :=
  { w with
    gl := { w.gl with currentProgram := program },
    trace := w.trace ++ [Call.glUseProgram program] }

def glGenBuffers (w : World) : Nat × World :=
  (w.gl.bufferCount + 1,
   { w with
     gl := { w.gl with bufferCount := w.gl.bufferCount + 1,
                       buffers := setAt w.gl.buffers (w.gl.bufferCount + 1)
                                    (some BufferData.empty) },
     trace := w.trace ++ [Call.glGenBuffers (w.gl.bufferCount + 1)] })

/-- Binding to `GL_ARRAY_BUFFER` sets the context's array-buffer binding;
binding to `GL_ELEMENT_ARRAY_BUFFER` is recorded in the vertex array object
bound at the time of the call. -/
def glBindBuffer (target : BufferTarget) (buffer : Nat) (w : World) : World :=
  { w with
    gl := match target with
      | .GL_ARRAY_BUFFER => { w.gl with arrayBuffer := buffer }
      | .GL_ELEMENT_ARRAY_BUFFER =>
        { w.gl with
          arrays := setAt w.gl.arrays w.gl.vertexArray
            ({ (w.gl.arrays w.gl.vertexArray) with elementBuffer := buffer }) },
    trace := w.trace ++ [Call.glBindBuffer target buffer] }

/-- The buffer bound to a target. -/
def GLState.boundBuffer (g : GLState) : BufferTarget → Nat
  | .GL_ARRAY_BUFFER => g.arrayBuffer
  | .GL_ELEMENT_ARRAY_BUFFER => (g.arrays g.vertexArray).elementBuffer

/-- The `size` bytes at `data` become the store of the buffer bound to
`target`; with buffer 0 bound the call is an error and stores nothing. -/
def glBufferData (target : BufferTarget) (size : Nat) (data : BufferData) (usage : Usage)
    (w : World) : World :=
  { w with
    gl := if w.gl.boundBuffer target = 0 then w.gl
          else { w.gl with buffers := setAt w.gl.buffers (w.gl.boundBuffer target) (some data) },
    trace := w.trace ++ [Call.glBufferData target size data usage] }

/-- Deleting a name that is not a buffer is silently ignored; a deleted buffer
bound to `GL_ARRAY_BUFFER` is unbound. -/
def glDeleteBuffers (buffer : Nat) (w : World) : World :=
  { w with
    gl := { w.gl with buffers := setAt w.gl.buffers buffer none,
                      arrayBuffer := if w.gl.arrayBuffer = buffer then 0 else w.gl.arrayBuffer },
    trace := w.trace ++ [Call.glDeleteBuffers buffer] }

def glGenVertexArrays (w : World) : Nat × World :=
  (w.gl.arrayCount + 1,
   { w with
     gl := { w.gl with arrayCount := w.gl.arrayCount + 1,
                       arrays := setAt w.gl.arrays (w.gl.arrayCount + 1)
                                   VertexArrayObject.fresh },
     trace := w.trace ++ [Call.glGenVertexArrays (w.gl.arrayCount + 1)] })

def glBindVertexArray (array : Nat) (w : World) : World :=
  { w with
    gl := { w.gl with vertexArray := array },
    trace := w.trace ++ [Call.glBindVertexArray array] }

/-- The release operation of vertex arrays.  The renderer never calls it. -/
def glDeleteVertexArrays (array : Nat) (w : World) : World :=
  { w with
    gl := { w.gl with arrays := setAt w.gl.arrays array
                        ({ (w.gl.arrays array) with live := false }),
                      vertexArray := if w.gl.vertexArray = array then 0 else w.gl.vertexArray },
    trace := w.trace ++ [Call.glDeleteVertexArrays array] }

def glEnableVertexAttribArray (index : Nat) (w : World) : World :=
  { w with
    gl := { w.gl with
            arrays := setAt w.gl.arrays w.gl.vertexArray
              ({ (w.gl.arrays w.gl.vertexArray) with
                 attribs := setAt (w.gl.arrays w.gl.vertexArray).attribs index
                   ({ ((w.gl.arrays w.gl.vertexArray).attribs index) with enabled := true }) }) },
    trace := w.trace ++ [Call.glEnableVertexAttribArray index] }

/-- The attribute slot of the bound vertex array object takes the format given
and the buffer bound to `GL_ARRAY_BUFFER` at the time of the call. -/
def glVertexAttribPointer (index size : Nat) (type : DataType) (normalized : Bool)
    (stride offset : Nat) (w : World) : World :=
  { w with
    gl := { w.gl with
            arrays := setAt w.gl.arrays w.gl.vertexArray
              ({ (w.gl.arrays w.gl.vertexArray) with
                 attribs := setAt (w.gl.arrays w.gl.vertexArray).attribs index
                   ({ enabled := ((w.gl.arrays w.gl.vertexArray).attribs index).enabled,
                      buffer := w.gl.arrayBuffer, size := size, type := type,
                      normalized := normalized, stride := stride, offset := offset }) }) },
    trace := w.trace ++ [Call.glVertexAttribPointer index size type normalized stride offset] }

def glEnable (cap : Capability) (w : World) : World :=
  { w with
    gl := match cap with
      | .GL_DEPTH_TEST => { w.gl with depthTest := true }
      | .GL_CULL_FACE => { w.gl with cullFace := true },
    trace := w.trace ++ [Call.glEnable cap] }

def glPolygonMode (face : Face) (mode : PolygonMode) (w : World) : World :=
  { w with
    gl := { w.gl with polygonMode := mode },
    trace := w.trace ++ [Call.glPolygonMode face mode] }

def glClearColor (red green blue alpha : GLfloat) (w : World) : World :=
  { w with
    gl := { w.gl with clearColor := (red, green, blue, alpha) },
    trace := w.trace ++ [Call.glClearColor red green blue alpha] }

/-- The mask `GL_COLOR_BUFFER_BIT | GL_DEPTH_BUFFER_BIT` is carried as the
two bits it sets. -/
def glClear (colorBit depthBit : Bool) (w : World) : World :=
  { w with trace := w.trace ++ [Call.glClear colorBit depthBit] }

def glGetIntegerv_GL_VIEWPORT (w : World) : (Int × Int × Int × Int) × World :=
  (w.gl.viewport,
   { w with trace := w.trace ++ [Call.glGetIntegerv_GL_VIEWPORT w.gl.viewport.1
       w.gl.viewport.2.1 w.gl.viewport.2.2.1 w.gl.viewport.2.2.2] })

def glGetUniformLocation (env : Env) (program : Nat) (name : String) (w : World) :
    Int × World :=
  (env.glGetUniformLocation program name,
   { w with trace := w.trace ++
       [Call.glGetUniformLocation program name (env.glGetUniformLocation program name)] })

def glUniformMatrix4fv (location : Int) (count : Nat) (transpose : Bool) (value : Mat4Expr)
    (w : World) : World :=
  { w with trace := w.trace ++ [Call.glUniformMatrix4fv location count transpose value] }

/-- The `count` parameter is a `GLsizei`, a signed 32-bit integer. -/
def glDrawElements (mode : DrawMode) (count : Int) (type : DataType) (offset : Nat)
    (w : World) : World :=
  { w with trace := w.trace ++ [Call.glDrawElements mode count type offset] }

/-! ## The Helpers collaborators -/

namespace Helpers

def LoadAndCompileShader (env : Env) (type : ShaderType) (path : String) (w : World) :
    Nat × World :=
  (env.LoadAndCompileShader type path,
   { w with trace := w.trace ++
       [Call.LoadAndCompileShader type path (env.LoadAndCompileShader type path)] })

def LinkProgramShaders (env : Env) (program : Nat) (w : World) : Bool × World :=
  (env.LinkProgramShaders program,
   { w with trace := w.trace ++
       [Call.LinkProgramShaders program (env.LinkProgramShaders program)] })

/-- Returns true when an error occurred. -/
def CheckForGLError (env : Env) (w : World) : Bool × World :=
  (env.CheckForGLError w.checks,
   { w with trace := w.trace ++ [Call.CheckForGLError (env.CheckForGLError w.checks)],
            checks := w.checks + 1 })

/-- The source's `loader.LoadFromFile(path)` followed by `loader.GetMeshVector()`:
`none` when the file could not be loaded. -/
def LoadFromFile (env : Env) (path : String) (w : World) : Option (List Mesh) × World :=
  (env.LoadFromFile path,
   { w with trace := w.trace ++ [Call.LoadFromFile path (env.LoadFromFile path).isSome] })

end Helpers

/-! ## The renderer -/

/-- Modelled from the spec: the class declaration (`Renderer.h`) is not among
the sources.  The renderer holds one program handle, one attribute-layout
handle, the index count needed to draw and the wireframe flag; these are the
members `Renderer.cpp` reads and writes.  Handles are carried as natural
numbers.  The index count is held as a 32-bit unsigned value: the size of the
element vector is reduced modulo 2^32 when it is stored, and `Render` hands the
stored value to the signed 32-bit `count` parameter of `glDrawElements`. -/
structure Renderer where
  m_program : Nat
  m_VAO : Nat
  m_numElements : Nat
  m_wireframe : Bool
deriving DecidableEq

/-- Result of a member function returning `bool`: the value returned, the
renderer and the world after the call. -/
structure Outcome where
  ok : Bool
  renderer : Renderer
  world : World

/-- The model file `Renderer::InitialiseGeometry` loads. -/
def modelPath : String := "Data\\Models\\Jeep\\jeep.obj"

namespace Renderer

/-- The source's `Renderer::~Renderer`. -/
def destructor (r : Renderer) (w : World) : World :=
  glDeleteBuffers r.m_VAO (glDeleteProgram r.m_program w)

/-- The source's `Renderer::DefineGUI`, as far as the renderer is concerned:
`ImGui::Checkbox` is handed the address of `m_wireframe` and may write it;
`checkbox` is the value it leaves there, given the value it finds. -/
def DefineGUI (checkbox : Bool → Bool) (r : Renderer) : Renderer :=
  { r with m_wireframe := checkbox r.m_wireframe }

/-- The source's `Renderer::CreateProgram`. -/
def CreateProgram (env : Env) (r : Renderer) (w : World) : Outcome :=
  let created := glCreateProgram w
  let r1 : Renderer := { r with m_program := created.1 }
  let vs := Helpers.LoadAndCompileShader env .GL_VERTEX_SHADER
    "Data/Shaders/vertex_shader.glsl" created.2
  let fs := Helpers.LoadAndCompileShader env .GL_FRAGMENT_SHADER
    "Data/Shaders/fragment_shader.glsl" vs.2
  if vs.1 = 0 ∨ fs.1 = 0 then
    { ok := false, renderer := r1, world := fs.2 }
  else
    let w1 := glAttachShader r1.m_program vs.1 fs.2
    let w2 := glAttachShader r1.m_program fs.1 w1
    let w3 := glDeleteShader vs.1 w2
    let w4 := glDeleteShader fs.1 w3
    let linked := Helpers.LinkProgramShaders env r1.m_program w4
    if linked.1 = false then
      { ok := false, renderer := r1, world := linked.2 }
    else
      let err := Helpers.CheckForGLError env linked.2
      { ok := !err.1, renderer := r1, world := err.2 }

/-- The body of the loop over the meshes in `Renderer::InitialiseGeometry`. -/
def InitialiseGeometry.body (env : Env) (rw : Renderer × World) (mesh : Mesh) :
    Renderer × World :=
  let gp := glGenBuffers rw.2
  let positionVBO := gp.1
  let w1 := glBindBuffer .GL_ARRAY_BUFFER positionVBO gp.2
  let w2 := glBufferData .GL_ARRAY_BUFFER (12 * mesh.vertices.length)
    (.floats3 mesh.vertices) .GL_STATIC_DRAW w1
  let w3 := glBindBuffer .GL_ARRAY_BUFFER 0 w2
  let gn := glGenBuffers w3
  let normalsVBO := gn.1
  let w4 := glBindBuffer .GL_ARRAY_BUFFER normalsVBO gn.2
  let w5 := glBufferData .GL_ARRAY_BUFFER (12 * mesh.normals.length)
    (.floats3 mesh.normals) .GL_STATIC_DRAW w4
  let w6 := glBindBuffer .GL_ARRAY_BUFFER 0 w5
  let ge := glGenBuffers w6
  let elementsEBO := ge.1
  let w7 := glBindBuffer .GL_ELEMENT_ARRAY_BUFFER elementsEBO ge.2
  let w8 := glBufferData .GL_ELEMENT_ARRAY_BUFFER (4 * mesh.elements.length)
    (.uints mesh.elements) .GL_STATIC_DRAW w7
  let r1 : Renderer := { rw.1 with m_numElements := narrowToGLuint mesh.elements.length }
  let gv := glGenVertexArrays w8
  let r2 : Renderer := { r1 with m_VAO := gv.1 }
  let w9 := glBindVertexArray r2.m_VAO gv.2
  let w10 := glBindBuffer .GL_ARRAY_BUFFER positionVBO w9
  let w11 := glEnableVertexAttribArray 0 w10
  let w12 := glVertexAttribPointer 0 3 .GL_FLOAT false 0 0 w11
  let w13 := glBindBuffer .GL_ARRAY_BUFFER normalsVBO w12
  let w14 := glEnableVertexAttribArray 1 w13
  let w15 := glVertexAttribPointer 1 3 .GL_FLOAT false 0 0 w14
  let w16 := glBindBuffer .GL_ELEMENT_ARRAY_BUFFER elementsEBO w15
  let chk := Helpers.CheckForGLError env w16
  (r2, glBindVertexArray 0 chk.2)

/-- The loop over the meshes in `Renderer::InitialiseGeometry`. -/
def InitialiseGeometry.loop (env : Env) (meshes : List Mesh) (rw : Renderer × World) :
    Renderer × World :=
  meshes.foldl (InitialiseGeometry.body env) rw

/-- The source's `Renderer::InitialiseGeometry`. -/
def InitialiseGeometry (env : Env) (r : Renderer) (w : World) : Outcome :=
  let prog := CreateProgram env r w
  if prog.ok = false then
    { ok := false, renderer := prog.renderer, world := prog.world }
  else
    let loaded := Helpers.LoadFromFile env modelPath prog.world
    match loaded.1 with
    | none => { ok := false, renderer := prog.renderer, world := loaded.2 }
    | some meshes =>
      let done := InitialiseGeometry.loop env meshes (prog.renderer, loaded.2)
      let chk := Helpers.CheckForGLError env done.2
      { ok := true, renderer := done.1, world := chk.2 }

/-- The source's `Renderer::Render`.  The location returned by
`glGetUniformLocation` is kept in a `GLuint` and handed back as the `GLint`
parameter of `glUniformMatrix4fv`; the two conversions cancel. -/
def Render (env : Env) (r : Renderer) (camera : Camera) (_deltaTime : GLfloat) (w : World) :
    Renderer × World :=
  let w1 := glEnable .GL_DEPTH_TEST w
  let w2 := glEnable .GL_CULL_FACE w1
  let w3 := if r.m_wireframe then glPolygonMode .GL_FRONT_AND_BACK .GL_LINE w2
            else glPolygonMode .GL_FRONT_AND_BACK .GL_FILL w2
  let w4 := glClearColor 0 0 0 0 w3
  let w5 := glClear true true w4
  let vp := glGetIntegerv_GL_VIEWPORT w5
  let aspect_ratio := FloatExpr.div (.ofInt vp.1.2.2.1) (.ofInt vp.1.2.2.2)
  let projection_xform := Mat4Expr.perspective (.radians (.lit 45)) aspect_ratio (.lit 1)
    (.lit 4000)
  let view_xform := Mat4Expr.lookAt (.val camera.GetPosition)
    (.add (.val camera.GetPosition) (.val camera.GetLookVector)) (.val camera.GetUpVector)
  let combined_xform := Mat4Expr.mul projection_xform view_xform
  let w6 := glUseProgram r.m_program vp.2
  let combined_xform_id := glGetUniformLocation env r.m_program "combined_xform" w6
  let w7 := glUniformMatrix4fv combined_xform_id.1 1 false combined_xform combined_xform_id.2
  let model_xform := Mat4Expr.diag (.lit 1)
  let model_xform_id := glGetUniformLocation env r.m_program "model_xform" w7
  let w8 := glUniformMatrix4fv model_xform_id.1 1 false model_xform model_xform_id.2
  let w9 := glBindVertexArray r.m_VAO w8
  let w10 := glDrawElements .GL_TRIANGLES (narrowToGLsizei r.m_numElements) .GL_UNSIGNED_INT 0 w9
  let chk := Helpers.CheckForGLError env w10
  (r, chk.2)

end Renderer

/-- A call of one of the member functions a caller makes once per frame. -/
inductive MemberCall where
  | DefineGUI (checkbox : Bool → Bool)
  | Render (camera : Camera) (deltaTime : GLfloat)

/-- Make one member call. -/
def Renderer.call (env : Env) (rw : Renderer × World) : MemberCall → Renderer × World
  | .DefineGUI checkbox => (Renderer.DefineGUI checkbox rw.1, rw.2)
  | .Render camera deltaTime => Renderer.Render env rw.1 camera deltaTime rw.2

/-- Make a sequence of member calls, in order. -/
def Renderer.run (env : Env) (calls : List MemberCall) (rw : Renderer × World) :
    Renderer × World :=
  calls.foldl (Renderer.call env) rw

/-- The state in which the mesh loop starts: after CreateProgram and the
model loader call. -/
def loopStart (env : Env) (r : Renderer) (w : World) : Renderer × World :=
  ((Renderer.CreateProgram env r w).renderer,
   (Helpers.LoadFromFile env modelPath (Renderer.CreateProgram env r w).world).2)

/-! ## Observations on traces -/

/-- Call `a` occurs in `l` at an earlier position than call `b`. -/
def occursBefore (a b : Call) (l : List Call) : Prop :=
  ∃ i j : Nat, i < j ∧ l[i]? = some a ∧ l[j]? = some b

/-- Whether a call is a draw call. -/
def Call.isDraw : Call → Bool
  | .glDrawElements _ _ _ _ => true
  | _ => false

/-- Whether a call selects the polygon mode. -/
def Call.isPolygonMode : Call → Bool
  | .glPolygonMode _ _ => true
  | _ => false

/-- Whether a call sets the clear colour. -/
def Call.isClearColor : Call → Bool
  | .glClearColor _ _ _ _ => true
  | _ => false

/-- Whether a call uploads a matrix uniform. -/
def Call.isUniform : Call → Bool
  | .glUniformMatrix4fv _ _ _ _ => true
  | _ => false

/-- The buffer name a call hands out, if it is a buffer generation. -/
def Call.generatedBuffer : Call → Option Nat
  | .glGenBuffers n => some n
  | _ => none

/-- The vertex array name a call hands out, if it is a vertex array
generation. -/
def Call.generatedArray : Call → Option Nat
  | .glGenVertexArrays n => some n
  | _ => none

/-- The buffer names handed out in a trace, in order. -/
def generatedBuffers (l : List Call) : List Nat :=
  l.filterMap Call.generatedBuffer

/-- The vertex array names handed out in a trace, in order. -/
def generatedArrays (l : List Call) : List Nat :=
  l.filterMap Call.generatedArray

/-! ## Concrete inputs -/

/-- A context in which no name has been handed out, with a 1280 x 720
viewport. -/
def GLState.initial : GLState :=
  { programCount := 0, programs := fun _ => false, currentProgram := 0,
    bufferCount := 0, buffers := fun _ => none, arrayBuffer := 0,
    arrayCount := 0,
    arrays := fun _ => { live := false, attribs := fun _ => VertexAttrib.initial,
                         elementBuffer := 0 },
    vertexArray := 0, depthTest := false, cullFace := false, polygonMode := .GL_FILL,
    clearColor := (0, 0, 0, 0), viewport := (0, 0, 1280, 720) }

/-- The world before the renderer has made any call. -/
def World.initial : World :=
  { gl := GLState.initial, trace := [], checks := 0 }

/-- A renderer whose members are all zero. -/
def Renderer.zero : Renderer :=
  { m_program := 0, m_VAO := 0, m_numElements := 0, m_wireframe := false }

/-- Collaborators that all succeed: the vertex stage compiles to handle 1,
the fragment stage to handle 2, linking succeeds, no GL error is ever reported
and the model file holds `meshes`; the uniforms `combined_xform` and
`model_xform` sit at locations 0 and 1. -/
def Env.good (meshes : List Mesh) : Env :=
  { LoadAndCompileShader := fun t _ =>
      match t with
      | .GL_VERTEX_SHADER => 1
      | .GL_FRAGMENT_SHADER => 2,
    LinkProgramShaders := fun _ => true,
    CheckForGLError := fun _ => false,
    LoadFromFile := fun _ => some meshes,
    glGetUniformLocation := fun _ name => if name = "combined_xform" then 0 else 1 }

/-- As `Env.good`, but the vertex stage fails to compile. -/
def Env.vertexFails : Env :=
  { Env.good [] with
    LoadAndCompileShader := fun t _ =>
      match t with
      | .GL_VERTEX_SHADER => 0
      | .GL_FRAGMENT_SHADER => 2 }

/-- As `Env.good`, but the error check that follows linking reports an error. -/
def Env.errorAfterLink : Env :=
  { Env.good [] with CheckForGLError := fun n => decide (n = 0) }

/-- As `Env.good`, but the model file cannot be loaded. -/
def Env.loadFails : Env :=
  { Env.good [] with LoadFromFile := fun _ => none }

/-- One triangle. -/
def triangleMesh : Mesh :=
  { vertices := [⟨0, 0, 0⟩, ⟨1, 0, 0⟩, ⟨0, 1, 0⟩],
    normals := [⟨0, 0, 1⟩, ⟨0, 0, 1⟩, ⟨0, 0, 1⟩],
    elements := [0, 1, 2] }

/-- A cube: 8 vertices, unit normals, 12 triangles. -/
def cubeMesh : Mesh :=
  { vertices := [⟨-1, -1, -1⟩, ⟨1, -1, -1⟩, ⟨1, 1, -1⟩, ⟨-1, 1, -1⟩,
                 ⟨-1, -1, 1⟩, ⟨1, -1, 1⟩, ⟨1, 1, 1⟩, ⟨-1, 1, 1⟩],
    normals := [⟨0, 0, -1⟩, ⟨0, 0, -1⟩, ⟨0, 0, -1⟩, ⟨0, 0, -1⟩,
                ⟨0, 0, 1⟩, ⟨0, 0, 1⟩, ⟨0, 0, 1⟩, ⟨0, 0, 1⟩],
    elements := [0, 2, 1, 0, 3, 2, 4, 5, 6, 4, 6, 7, 0, 1, 5, 0, 5, 4,
                 3, 6, 2, 3, 7, 6, 0, 4, 7, 0, 7, 3, 1, 2, 6, 1, 6, 5] }

/-- A mesh with 3000000000 index values, more than a signed 32-bit count
holds. -/
def hugeMesh : Mesh :=
  { vertices := [], normals := [], elements := List.replicate 3000000000 0 }

/-- A camera at (0, 0, 5) looking at the origin with up (0, 1, 0). -/
def cubeCamera : Camera :=
  { GetPosition := ⟨0, 0, 5⟩, GetLookVector := ⟨0, 0, -1⟩, GetUpVector := ⟨0, 1, 0⟩ }

/-- One earlier frame: the GUI ticks the wireframe box, then a Render call. -/
def earlierFrame : List MemberCall :=
  [MemberCall.DefineGUI (fun _ => true), MemberCall.Render cubeCamera 0]

/-! ## Lemmas on the trace -/

theorem callsSince_append (w w2 : World) (l : List Call) (h : w2.trace = w.trace ++ l) :
    callsSince w w2 = l := by
  simp [callsSince, h]

/-- The calls one Render call makes, in order. -/
theorem Render_calls (env : Env) (r : Renderer) (camera : Camera) (deltaTime : GLfloat)
    (w : World) :
    callsSince w (Renderer.Render env r camera deltaTime w).2 =
      [Call.glEnable .GL_DEPTH_TEST,
       Call.glEnable .GL_CULL_FACE,
       Call.glPolygonMode .GL_FRONT_AND_BACK (if r.m_wireframe then .GL_LINE else .GL_FILL),
       Call.glClearColor 0 0 0 0,
       Call.glClear true true,
       Call.glGetIntegerv_GL_VIEWPORT w.gl.viewport.1 w.gl.viewport.2.1 w.gl.viewport.2.2.1
         w.gl.viewport.2.2.2,
       Call.glUseProgram r.m_program,
       Call.glGetUniformLocation r.m_program "combined_xform"
         (env.glGetUniformLocation r.m_program "combined_xform"),
       Call.glUniformMatrix4fv (env.glGetUniformLocation r.m_program "combined_xform") 1 false
         (.mul
           (.perspective (.radians (.lit 45))
             (.div (.ofInt w.gl.viewport.2.2.1) (.ofInt w.gl.viewport.2.2.2)) (.lit 1)
             (.lit 4000))
           (.lookAt (.val camera.GetPosition)
             (.add (.val camera.GetPosition) (.val camera.GetLookVector))
             (.val camera.GetUpVector))),
       Call.glGetUniformLocation r.m_program "model_xform"
         (env.glGetUniformLocation r.m_program "model_xform"),
       Call.glUniformMatrix4fv (env.glGetUniformLocation r.m_program "model_xform") 1 false
         (.diag (.lit 1)),
       Call.glBindVertexArray r.m_VAO,
       Call.glDrawElements .GL_TRIANGLES (narrowToGLsizei r.m_numElements) .GL_UNSIGNED_INT 0,
       Call.CheckForGLError (env.CheckForGLError w.checks)] := by
  cases hw : r.m_wireframe <;>
    simp [Renderer.Render, callsSince, glEnable, glPolygonMode, glClearColor, glClear,
      glGetIntegerv_GL_VIEWPORT, glUseProgram, glGetUniformLocation, glUniformMatrix4fv,
      glBindVertexArray, glDrawElements, Helpers.CheckForGLError, hw]

theorem generatedArrays_append (a b : List Call) :
    generatedArrays (a ++ b) = generatedArrays a ++ generatedArrays b := by
  simp [generatedArrays, List.filterMap_append]

theorem generatedBuffers_append (a b : List Call) :
    generatedBuffers (a ++ b) = generatedBuffers a ++ generatedBuffers b := by
  simp [generatedBuffers, List.filterMap_append]

/-! ## The mesh loop -/

/-- The calls made for one mesh, given the buffer and vertex array counts
before it and the outcome of the error check. -/
theorem body_trace (env : Env) (rw : Renderer × World) (mesh : Mesh) :
    (Renderer.InitialiseGeometry.body env rw mesh).2.trace = rw.2.trace ++
      [Call.glGenBuffers (rw.2.gl.bufferCount + 1),
       Call.glBindBuffer .GL_ARRAY_BUFFER (rw.2.gl.bufferCount + 1),
       Call.glBufferData .GL_ARRAY_BUFFER (12 * mesh.vertices.length)
         (.floats3 mesh.vertices) .GL_STATIC_DRAW,
       Call.glBindBuffer .GL_ARRAY_BUFFER 0,
       Call.glGenBuffers (rw.2.gl.bufferCount + 2),
       Call.glBindBuffer .GL_ARRAY_BUFFER (rw.2.gl.bufferCount + 2),
       Call.glBufferData .GL_ARRAY_BUFFER (12 * mesh.normals.length)
         (.floats3 mesh.normals) .GL_STATIC_DRAW,
       Call.glBindBuffer .GL_ARRAY_BUFFER 0,
       Call.glGenBuffers (rw.2.gl.bufferCount + 3),
       Call.glBindBuffer .GL_ELEMENT_ARRAY_BUFFER (rw.2.gl.bufferCount + 3),
       Call.glBufferData .GL_ELEMENT_ARRAY_BUFFER (4 * mesh.elements.length)
         (.uints mesh.elements) .GL_STATIC_DRAW,
       Call.glGenVertexArrays (rw.2.gl.arrayCount + 1),
       Call.glBindVertexArray (rw.2.gl.arrayCount + 1),
       Call.glBindBuffer .GL_ARRAY_BUFFER (rw.2.gl.bufferCount + 1),
       Call.glEnableVertexAttribArray 0,
       Call.glVertexAttribPointer 0 3 .GL_FLOAT false 0 0,
       Call.glBindBuffer .GL_ARRAY_BUFFER (rw.2.gl.bufferCount + 2),
       Call.glEnableVertexAttribArray 1,
       Call.glVertexAttribPointer 1 3 .GL_FLOAT false 0 0,
       Call.glBindBuffer .GL_ELEMENT_ARRAY_BUFFER (rw.2.gl.bufferCount + 3),
       Call.CheckForGLError (env.CheckForGLError rw.2.checks),
       Call.glBindVertexArray 0] := by
  simp [Renderer.InitialiseGeometry.body, glGenBuffers, glBindBuffer, glBufferData,
    glGenVertexArrays, glBindVertexArray, glEnableVertexAttribArray, glVertexAttribPointer,
    Helpers.CheckForGLError, GLState.boundBuffer, setAt, apply_ite]

/-- What the loop body leaves in the renderer. -/
theorem body_renderer (env : Env) (rw : Renderer × World) (mesh : Mesh) :
    (Renderer.InitialiseGeometry.body env rw mesh).1 =
      { rw.1 with m_numElements := narrowToGLuint mesh.elements.length,
                  m_VAO := rw.2.gl.arrayCount + 1 } := by
  simp [Renderer.InitialiseGeometry.body, glGenBuffers, glBindBuffer, glBufferData,
    glGenVertexArrays, glBindVertexArray, glEnableVertexAttribArray, glVertexAttribPointer,
    Helpers.CheckForGLError, GLState.boundBuffer, setAt, apply_ite]

/-- The loop body hands out one vertex array name and three buffer names, and
leaves no vertex array bound. -/
theorem body_counts (env : Env) (rw : Renderer × World) (mesh : Mesh) :
    (Renderer.InitialiseGeometry.body env rw mesh).2.gl.arrayCount = rw.2.gl.arrayCount + 1 ∧
    (Renderer.InitialiseGeometry.body env rw mesh).2.gl.bufferCount
      = rw.2.gl.bufferCount + 3 ∧
    (Renderer.InitialiseGeometry.body env rw mesh).2.gl.vertexArray = 0 := by
  refine ⟨?_, ?_, ?_⟩ <;>
  simp [Renderer.InitialiseGeometry.body, glGenBuffers, glBindBuffer, glBufferData,
    glGenVertexArrays, glBindVertexArray, glEnableVertexAttribArray, glVertexAttribPointer,
    Helpers.CheckForGLError, GLState.boundBuffer, setAt, apply_ite]

/-- The loop body leaves the vertex array it generates with slots 0 and 1
enabled and sourcing the position and the normal buffer it generates, with the
element buffer it generates bound, and leaves the mesh data in the three
buffers. -/
theorem body_layout (env : Env) (rw : Renderer × World) (mesh : Mesh) :
    ((Renderer.InitialiseGeometry.body env rw mesh).2.gl.arrays
        (rw.2.gl.arrayCount + 1)).attribs 0 =
      { enabled := true, buffer := rw.2.gl.bufferCount + 1, size := 3, type := .GL_FLOAT,
        normalized := false, stride := 0, offset := 0 } ∧
    ((Renderer.InitialiseGeometry.body env rw mesh).2.gl.arrays
        (rw.2.gl.arrayCount + 1)).attribs 1 =
      { enabled := true, buffer := rw.2.gl.bufferCount + 2, size := 3, type := .GL_FLOAT,
        normalized := false, stride := 0, offset := 0 } ∧
    ((Renderer.InitialiseGeometry.body env rw mesh).2.gl.arrays
        (rw.2.gl.arrayCount + 1)).elementBuffer = rw.2.gl.bufferCount + 3 ∧
    ((Renderer.InitialiseGeometry.body env rw mesh).2.gl.arrays
        (rw.2.gl.arrayCount + 1)).live = true ∧
    (Renderer.InitialiseGeometry.body env rw mesh).2.gl.buffers (rw.2.gl.bufferCount + 1) =
      some (.floats3 mesh.vertices) ∧
    (Renderer.InitialiseGeometry.body env rw mesh).2.gl.buffers (rw.2.gl.bufferCount + 2) =
      some (.floats3 mesh.normals) ∧
    (Renderer.InitialiseGeometry.body env rw mesh).2.gl.buffers (rw.2.gl.bufferCount + 3) =
      some (.uints mesh.elements) := by
  refine ⟨?_, ?_, ?_, ?_, ?_, ?_, ?_⟩ <;>
  simp [Renderer.InitialiseGeometry.body, glGenBuffers, glBindBuffer, glBufferData,
    glGenVertexArrays, glBindVertexArray, glEnableVertexAttribArray, glVertexAttribPointer,
    Helpers.CheckForGLError, GLState.boundBuffer, setAt, apply_ite,
    VertexArrayObject.fresh, VertexAttrib.initial]

/-- With no vertex array bound at its start, the loop body leaves every
vertex array and every buffer generated earlier as it found them. -/
theorem body_preserves (env : Env) (rw : Renderer × World) (mesh : Mesh)
    (h0 : rw.2.gl.vertexArray = 0) :
    (∀ v, v ≠ 0 → v ≤ rw.2.gl.arrayCount →
      (Renderer.InitialiseGeometry.body env rw mesh).2.gl.arrays v = rw.2.gl.arrays v) ∧
    (∀ b, b ≤ rw.2.gl.bufferCount →
      (Renderer.InitialiseGeometry.body env rw mesh).2.gl.buffers b = rw.2.gl.buffers b) := by
  refine ⟨?_, ?_⟩
  · intro v hv hle
    have h1 : v ≠ rw.2.gl.arrayCount + 1 := by omega
    simp [Renderer.InitialiseGeometry.body, glGenBuffers, glBindBuffer, glBufferData,
      glGenVertexArrays, glBindVertexArray, glEnableVertexAttribArray, glVertexAttribPointer,
      Helpers.CheckForGLError, GLState.boundBuffer, setAt, apply_ite, h0, hv, h1]
  · intro b hle
    have h1 : b ≠ rw.2.gl.bufferCount + 1 := by omega
    have h2 : b ≠ rw.2.gl.bufferCount + 2 := by omega
    have h3 : b ≠ rw.2.gl.bufferCount + 3 := by omega
    simp [Renderer.InitialiseGeometry.body, glGenBuffers, glBindBuffer, glBufferData,
      glGenVertexArrays, glBindVertexArray, glEnableVertexAttribArray, glVertexAttribPointer,
      Helpers.CheckForGLError, GLState.boundBuffer, setAt, apply_ite, h0, h1, h2, h3]

theorem loop_cons (env : Env) (m : Mesh) (ms : List Mesh) (rw : Renderer × World) :
    Renderer.InitialiseGeometry.loop env (m :: ms) rw =
      Renderer.InitialiseGeometry.loop env ms (Renderer.InitialiseGeometry.body env rw m) :=
  rfl

theorem loop_append (env : Env) (ms ns : List Mesh) (rw : Renderer × World) :
    Renderer.InitialiseGeometry.loop env (ms ++ ns) rw =
      Renderer.InitialiseGeometry.loop env ns (Renderer.InitialiseGeometry.loop env ms rw) := by
  simp [Renderer.InitialiseGeometry.loop, List.foldl_append]

/-- The loop hands out one vertex array name and three buffer names per mesh. -/
theorem loop_counts (env : Env) (ms : List Mesh) (rw : Renderer × World) :
    (Renderer.InitialiseGeometry.loop env ms rw).2.gl.arrayCount
      = rw.2.gl.arrayCount + ms.length ∧
    (Renderer.InitialiseGeometry.loop env ms rw).2.gl.bufferCount
      = rw.2.gl.bufferCount + 3 * ms.length := by
  induction ms generalizing rw with
  | nil => exact ⟨rfl, rfl⟩
  | cons m ms ih =>
    rw [loop_cons]
    obtain ⟨h1, h2⟩ := ih (Renderer.InitialiseGeometry.body env rw m)
    obtain ⟨c1, c2, _⟩ := body_counts env rw m
    rw [h1, h2, c1, c2]
    simp only [List.length_cons]
    constructor <;> omega

/-- Started with no vertex array bound, the loop ends with none bound and
leaves every vertex array and every buffer generated earlier as it found
them. -/
theorem loop_preserves (env : Env) (ms : List Mesh) (rw : Renderer × World)
    (h0 : rw.2.gl.vertexArray = 0) :
    (Renderer.InitialiseGeometry.loop env ms rw).2.gl.vertexArray = 0 ∧
    (∀ v, v ≠ 0 → v ≤ rw.2.gl.arrayCount →
      (Renderer.InitialiseGeometry.loop env ms rw).2.gl.arrays v = rw.2.gl.arrays v) ∧
    (∀ b, b ≤ rw.2.gl.bufferCount →
      (Renderer.InitialiseGeometry.loop env ms rw).2.gl.buffers b = rw.2.gl.buffers b) := by
  induction ms generalizing rw with
  | nil => exact ⟨h0, fun _ _ _ => rfl, fun _ _ => rfl⟩
  | cons m ms ih =>
    rw [loop_cons]
    obtain ⟨c1, c2, c3⟩ := body_counts env rw m
    obtain ⟨p1, p2⟩ := body_preserves env rw m h0
    obtain ⟨i1, i2, i3⟩ := ih (Renderer.InitialiseGeometry.body env rw m) c3
    refine ⟨i1, ?_, ?_⟩
    · intro v hv hle
      rw [i2 v hv (by omega), p1 v hv hle]
    · intro b hle
      rw [i3 b (by omega), p2 b hle]

/-- The names the loop hands out, in order: consecutive vertex array names,
one per mesh, and consecutive buffer names, three per mesh. -/
theorem loop_trace (env : Env) (ms : List Mesh) (rw : Renderer × World) :
    ∃ calls, (Renderer.InitialiseGeometry.loop env ms rw).2.trace = rw.2.trace ++ calls ∧
      generatedArrays calls = List.range' (rw.2.gl.arrayCount + 1) ms.length ∧
      generatedBuffers calls = List.range' (rw.2.gl.bufferCount + 1) (3 * ms.length) := by
  induction ms generalizing rw with
  | nil => exact ⟨[], by simp [Renderer.InitialiseGeometry.loop], rfl, rfl⟩
  | cons m ms ih =>
    rw [loop_cons]
    obtain ⟨c1, c2, _⟩ := body_counts env rw m
    obtain ⟨calls, ht, ha, hb⟩ := ih (Renderer.InitialiseGeometry.body env rw m)
    rw [body_trace, List.append_assoc] at ht
    refine ⟨_, ht, ?_, ?_⟩
    · rw [generatedArrays_append, ha, c1]
      simp [generatedArrays, Call.generatedArray, List.range'_succ]
    · rw [generatedBuffers_append, hb, c2]
      have h3 : 3 * (m :: ms).length = 3 * ms.length + 1 + 1 + 1 := by
        simp only [List.length_cons]; omega
      rw [h3]
      simp [generatedBuffers, Call.generatedBuffer, List.range'_succ, Nat.add_assoc]

/-! ## Pipeline setup -/

/-- CreateProgram stores the program it creates, touches no buffer and no
vertex array, and hands out no buffer or vertex array name. -/
theorem CreateProgram_frame (env : Env) (r : Renderer) (w : World) :
    (Renderer.CreateProgram env r w).renderer = { r with m_program := w.gl.programCount + 1 } ∧
    (Renderer.CreateProgram env r w).world.gl.arrayCount = w.gl.arrayCount ∧
    (Renderer.CreateProgram env r w).world.gl.bufferCount = w.gl.bufferCount ∧
    (Renderer.CreateProgram env r w).world.gl.programs (w.gl.programCount + 1) = true ∧
    ∃ calls, (Renderer.CreateProgram env r w).world.trace = w.trace ++ calls ∧
      generatedArrays calls = [] ∧ generatedBuffers calls = [] := by
  unfold Renderer.CreateProgram
  simp only []
  split_ifs <;>
    simp [Helpers.LoadAndCompileShader, Helpers.LinkProgramShaders,
      Helpers.CheckForGLError, glCreateProgram, glAttachShader, glDeleteShader,
      generatedArrays, generatedBuffers, Call.generatedArray, Call.generatedBuffer, setAt]

/-- The value CreateProgram returns, in terms of the outcomes of the collaborators. -/
theorem CreateProgram_ok_eq (env : Env) (r : Renderer) (w : World) :
    (Renderer.CreateProgram env r w).ok =
      (decide (env.LoadAndCompileShader .GL_VERTEX_SHADER
          "Data/Shaders/vertex_shader.glsl" ≠ 0) &&
       decide (env.LoadAndCompileShader .GL_FRAGMENT_SHADER
          "Data/Shaders/fragment_shader.glsl" ≠ 0) &&
       env.LinkProgramShaders (w.gl.programCount + 1) &&
       !env.CheckForGLError w.checks) := by
  by_cases hv : env.LoadAndCompileShader .GL_VERTEX_SHADER
      "Data/Shaders/vertex_shader.glsl" = 0 <;>
  by_cases hf : env.LoadAndCompileShader .GL_FRAGMENT_SHADER
      "Data/Shaders/fragment_shader.glsl" = 0 <;>
  cases hl : env.LinkProgramShaders (w.gl.programCount + 1) <;>
    simp [Renderer.CreateProgram, Helpers.LoadAndCompileShader, Helpers.LinkProgramShaders,
      Helpers.CheckForGLError, glCreateProgram, glAttachShader, glDeleteShader, hv, hf, hl]

/-- The value InitialiseGeometry returns, in terms of the value CreateProgram returns. -/
theorem InitialiseGeometry_ok_eq (env : Env) (r : Renderer) (w : World) :
    (Renderer.InitialiseGeometry env r w).ok =
      ((Renderer.CreateProgram env r w).ok && (env.LoadFromFile modelPath).isSome) := by
  unfold Renderer.InitialiseGeometry
  cases hp : (Renderer.CreateProgram env r w).ok
  · simp [hp]
  · cases hl : env.LoadFromFile modelPath <;> simp [Helpers.LoadFromFile, hl, hp]

/-- CreateProgram never calls the model loader. -/
theorem CreateProgram_no_load (env : Env) (r : Renderer) (w : World) (p : String) (b : Bool) :
    Call.LoadFromFile p b ∉ callsSince w (Renderer.CreateProgram env r w).world := by
  unfold Renderer.CreateProgram
  simp only []
  split_ifs <;>
    simp [Helpers.LoadAndCompileShader, Helpers.LinkProgramShaders,
      Helpers.CheckForGLError, glCreateProgram, glAttachShader, glDeleteShader, callsSince]

/-- C1 (as amended): whenever the vertex-stage or the fragment-stage
compilation returns a null handle, CreateProgram returns failure, the calls it
made are exactly one program creation followed by the two compilation requests
(nothing is attached, deleted or linked), and m_program holds the program just
created, which is live. -/
theorem CreateProgram_compile_failure (env : Env) (r : Renderer) (w : World)
    (h : env.LoadAndCompileShader .GL_VERTEX_SHADER "Data/Shaders/vertex_shader.glsl" = 0 ∨
         env.LoadAndCompileShader .GL_FRAGMENT_SHADER "Data/Shaders/fragment_shader.glsl" = 0) :
    (Renderer.CreateProgram env r w).ok = false ∧
    callsSince w (Renderer.CreateProgram env r w).world =
      [Call.glCreateProgram (w.gl.programCount + 1),
       Call.LoadAndCompileShader .GL_VERTEX_SHADER "Data/Shaders/vertex_shader.glsl"
         (env.LoadAndCompileShader .GL_VERTEX_SHADER "Data/Shaders/vertex_shader.glsl"),
       Call.LoadAndCompileShader .GL_FRAGMENT_SHADER "Data/Shaders/fragment_shader.glsl"
         (env.LoadAndCompileShader .GL_FRAGMENT_SHADER "Data/Shaders/fragment_shader.glsl")] ∧
    (Renderer.CreateProgram env r w).renderer.m_program = w.gl.programCount + 1 ∧
    (Renderer.CreateProgram env r w).world.gl.programs (w.gl.programCount + 1) = true := by
  simp [Renderer.CreateProgram, Helpers.LoadAndCompileShader, glCreateProgram, h, callsSince,
    setAt]

theorem CreateProgram_compile_failure_witness :
    (Env.vertexFails.LoadAndCompileShader .GL_VERTEX_SHADER "Data/Shaders/vertex_shader.glsl" = 0 ∨
     Env.vertexFails.LoadAndCompileShader .GL_FRAGMENT_SHADER
       "Data/Shaders/fragment_shader.glsl" = 0) ∧
    (Renderer.CreateProgram Env.vertexFails Renderer.zero World.initial).ok = false ∧
    (Renderer.CreateProgram Env.vertexFails Renderer.zero World.initial).renderer.m_program
      = 1 :=
  ⟨Or.inl rfl,
   (CreateProgram_compile_failure Env.vertexFails Renderer.zero World.initial (Or.inl rfl)).1,
   (CreateProgram_compile_failure Env.vertexFails Renderer.zero World.initial
      (Or.inl rfl)).2.2.1⟩

/-- C1 fails as stated: with a vertex stage that compiles to the null handle,
CreateProgram returns failure, yet the calls it made contain a program
creation and m_program, 0 before the call, holds the created program 1, which
is live in the context. -/
theorem compile_failure_keeps_created_program :
    Env.vertexFails.LoadAndCompileShader .GL_VERTEX_SHADER "Data/Shaders/vertex_shader.glsl" = 0 ∧
    (Renderer.CreateProgram Env.vertexFails Renderer.zero World.initial).ok = false ∧
    Call.glCreateProgram 1 ∈
      callsSince World.initial
        (Renderer.CreateProgram Env.vertexFails Renderer.zero World.initial).world ∧
    Renderer.zero.m_program = 0 ∧
    (Renderer.CreateProgram Env.vertexFails Renderer.zero World.initial).renderer.m_program
      = 1 ∧
    (Renderer.CreateProgram Env.vertexFails Renderer.zero World.initial).world.gl.programs 1
      = true := by
  simp [Renderer.CreateProgram, Helpers.LoadAndCompileShader, glCreateProgram, callsSince,
    setAt, Env.vertexFails, World.initial, GLState.initial, Renderer.zero]

/-- C2 (as amended): when both stage compilations return a non-null handle,
CreateProgram returns success exactly when the link collaborator reports
success and the GPU error check made after linking reports no error. -/
theorem CreateProgram_result (env : Env) (r : Renderer) (w : World)
    (hv : env.LoadAndCompileShader .GL_VERTEX_SHADER "Data/Shaders/vertex_shader.glsl" ≠ 0)
    (hf : env.LoadAndCompileShader .GL_FRAGMENT_SHADER "Data/Shaders/fragment_shader.glsl" ≠ 0) :
    (Renderer.CreateProgram env r w).ok =
      (env.LinkProgramShaders (w.gl.programCount + 1) && !env.CheckForGLError w.checks) := by
  cases hl : env.LinkProgramShaders (w.gl.programCount + 1) <;>
    simp [Renderer.CreateProgram, Helpers.LoadAndCompileShader, Helpers.LinkProgramShaders,
      Helpers.CheckForGLError, glCreateProgram, glAttachShader, glDeleteShader, hv, hf, hl]

theorem CreateProgram_result_witness :
    Env.errorAfterLink.LoadAndCompileShader .GL_VERTEX_SHADER
      "Data/Shaders/vertex_shader.glsl" ≠ 0 ∧
    Env.errorAfterLink.LoadAndCompileShader .GL_FRAGMENT_SHADER
      "Data/Shaders/fragment_shader.glsl" ≠ 0 ∧
    (Renderer.CreateProgram Env.errorAfterLink Renderer.zero World.initial).ok =
      (Env.errorAfterLink.LinkProgramShaders (World.initial.gl.programCount + 1) &&
        !Env.errorAfterLink.CheckForGLError World.initial.checks) :=
  ⟨by decide, by decide,
   CreateProgram_result Env.errorAfterLink Renderer.zero World.initial (by decide) (by decide)⟩

/-- C2 fails as stated: both stages compile to non-null handles and the link
collaborator reports success, but the GPU error check made after linking
reports an error, and CreateProgram returns failure. -/
theorem CreateProgram_fails_on_error_check :
    Env.errorAfterLink.LoadAndCompileShader .GL_VERTEX_SHADER
      "Data/Shaders/vertex_shader.glsl" = 1 ∧
    Env.errorAfterLink.LoadAndCompileShader .GL_FRAGMENT_SHADER
      "Data/Shaders/fragment_shader.glsl" = 2 ∧
    Env.errorAfterLink.LinkProgramShaders 1 = true ∧
    Call.LinkProgramShaders 1 true ∈
      callsSince World.initial
        (Renderer.CreateProgram Env.errorAfterLink Renderer.zero World.initial).world ∧
    (Renderer.CreateProgram Env.errorAfterLink Renderer.zero World.initial).ok = false := by
  simp [Renderer.CreateProgram, Helpers.LoadAndCompileShader, Helpers.LinkProgramShaders,
    Helpers.CheckForGLError, glCreateProgram, glAttachShader, glDeleteShader, callsSince,
    Env.errorAfterLink, Env.good, World.initial, GLState.initial, Renderer.zero]

/-! ## Geometry upload -/

/-- A successful InitialiseGeometry ends in the state the mesh loop ends in,
with one more error check in the trace. -/
theorem InitialiseGeometry_success (env : Env) (r : Renderer) (w : World) (meshes : List Mesh)
    (hload : env.LoadFromFile modelPath = some meshes)
    (hok : (Renderer.InitialiseGeometry env r w).ok = true) :
    (Renderer.InitialiseGeometry env r w).renderer =
      (Renderer.InitialiseGeometry.loop env meshes (loopStart env r w)).1 ∧
    (Renderer.InitialiseGeometry env r w).world.gl =
      (Renderer.InitialiseGeometry.loop env meshes (loopStart env r w)).2.gl ∧
    ∃ b, (Renderer.InitialiseGeometry env r w).world.trace =
      (Renderer.InitialiseGeometry.loop env meshes (loopStart env r w)).2.trace ++
        [Call.CheckForGLError b] := by
  have hcp : (Renderer.CreateProgram env r w).ok = true := by
    rw [InitialiseGeometry_ok_eq, Bool.and_eq_true] at hok
    exact hok.1
  simp [Renderer.InitialiseGeometry, hcp, Helpers.LoadFromFile, hload, loopStart,
    Helpers.CheckForGLError]

/-- The loop starts with the counts of buffer and vertex array names the
call found, and its trace extends the one the call found without handing out
any such name. -/
theorem loopStart_frame (env : Env) (r : Renderer) (w : World) :
    (loopStart env r w).2.gl.arrayCount = w.gl.arrayCount ∧
    (loopStart env r w).2.gl.bufferCount = w.gl.bufferCount ∧
    ∃ calls, (loopStart env r w).2.trace = w.trace ++ calls ∧
      generatedArrays calls = [] ∧ generatedBuffers calls = [] := by
  obtain ⟨_, h1, h2, _, calls, ht, ha, hb⟩ := CreateProgram_frame env r w
  refine ⟨h1, h2, calls ++ [Call.LoadFromFile modelPath (env.LoadFromFile modelPath).isSome],
    ?_, ?_, ?_⟩
  · simp [loopStart, Helpers.LoadFromFile, ht]
  · rw [generatedArrays_append, ha]; rfl
  · rw [generatedBuffers_append, hb]; rfl

/-- The names a successful InitialiseGeometry hands out, in order. -/
theorem InitialiseGeometry_generated (env : Env) (r : Renderer) (w : World)
    (meshes : List Mesh) (hload : env.LoadFromFile modelPath = some meshes)
    (hok : (Renderer.InitialiseGeometry env r w).ok = true) :
    generatedArrays (callsSince w (Renderer.InitialiseGeometry env r w).world) =
      List.range' (w.gl.arrayCount + 1) meshes.length ∧
    generatedBuffers (callsSince w (Renderer.InitialiseGeometry env r w).world) =
      List.range' (w.gl.bufferCount + 1) (3 * meshes.length) := by
  obtain ⟨_, _, b, ht⟩ := InitialiseGeometry_success env r w meshes hload hok
  obtain ⟨h1, h2, c1, hs, a1, b1⟩ := loopStart_frame env r w
  obtain ⟨c2, hl, a2, b2⟩ := loop_trace env meshes (loopStart env r w)
  have hc : callsSince w (Renderer.InitialiseGeometry env r w).world =
      c1 ++ (c2 ++ [Call.CheckForGLError b]) := by
    apply callsSince_append
    rw [ht, hl, hs]
    simp
  rw [hc, generatedArrays_append, generatedArrays_append, generatedBuffers_append,
    generatedBuffers_append, a1, a2, b1, b2, h1, h2]
  simp [generatedArrays, generatedBuffers, Call.generatedArray, Call.generatedBuffer]

/-- DefineGUI and Render leave the program, the layout handle and the index
count of the renderer as they are. -/
theorem run_fields (env : Env) (calls : List MemberCall) (rw : Renderer × World) :
    (Renderer.run env calls rw).1.m_program = rw.1.m_program ∧
    (Renderer.run env calls rw).1.m_VAO = rw.1.m_VAO ∧
    (Renderer.run env calls rw).1.m_numElements = rw.1.m_numElements := by
  induction calls generalizing rw with
  | nil => exact ⟨rfl, rfl, rfl⟩
  | cons c calls ih =>
    have h := ih (Renderer.call env rw c)
    cases c <;> exact h

/-- After a successful InitialiseGeometry on a collection ending in `last`,
the renderer holds the vertex array name generated last and the number of
index values of `last`, reduced to 32 bits. -/
theorem InitialiseGeometry_stored (env : Env) (r : Renderer) (w : World)
    (meshes : List Mesh) (last : Mesh)
    (hload : env.LoadFromFile modelPath = some (meshes ++ [last]))
    (hok : (Renderer.InitialiseGeometry env r w).ok = true) :
    (Renderer.InitialiseGeometry env r w).renderer.m_VAO
      = w.gl.arrayCount + meshes.length + 1 ∧
    (Renderer.InitialiseGeometry env r w).renderer.m_numElements =
      narrowToGLuint last.elements.length := by
  obtain ⟨hr, _, _⟩ := InitialiseGeometry_success env r w _ hload hok
  obtain ⟨s1, _, _⟩ := loopStart_frame env r w
  obtain ⟨k1, _⟩ := loop_counts env meshes (loopStart env r w)
  have hb := body_renderer env
    (Renderer.InitialiseGeometry.loop env meshes (loopStart env r w)) last
  have hl : Renderer.InitialiseGeometry.loop env [last]
      (Renderer.InitialiseGeometry.loop env meshes (loopStart env r w)) =
      Renderer.InitialiseGeometry.body env
        (Renderer.InitialiseGeometry.loop env meshes (loopStart env r w)) last := rfl
  rw [hr, loop_append, hl, hb]
  simp [k1, s1]

/-! ## Geometry upload: the failure paths -/

/-- C3: when the model loader reports that it could not load the file,
InitialiseGeometry returns failure, the calls it made contain no buffer
generation, no buffer data upload and no vertex array generation, and the
stored index count and the stored layout handle are unchanged. -/
theorem InitialiseGeometry_load_failure (env : Env) (r : Renderer) (w : World)
    (h : env.LoadFromFile modelPath = none) :
    (Renderer.InitialiseGeometry env r w).ok = false ∧
    (∀ n, Call.glGenBuffers n ∉ callsSince w (Renderer.InitialiseGeometry env r w).world) ∧
    (∀ t n d u,
      Call.glBufferData t n d u ∉ callsSince w (Renderer.InitialiseGeometry env r w).world) ∧
    (∀ n,
      Call.glGenVertexArrays n ∉ callsSince w (Renderer.InitialiseGeometry env r w).world) ∧
    (Renderer.InitialiseGeometry env r w).renderer.m_numElements = r.m_numElements ∧
    (Renderer.InitialiseGeometry env r w).renderer.m_VAO = r.m_VAO := by
  simp only [Renderer.InitialiseGeometry, Renderer.CreateProgram, Helpers.LoadFromFile, h]
  split_ifs <;>
    simp [Helpers.LoadAndCompileShader, Helpers.LinkProgramShaders,
      Helpers.CheckForGLError, glCreateProgram, glAttachShader, glDeleteShader, callsSince]

theorem InitialiseGeometry_load_failure_witness :
    Env.loadFails.LoadFromFile modelPath = none ∧
    (Renderer.InitialiseGeometry Env.loadFails Renderer.zero World.initial).ok = false ∧
    (∀ n, Call.glGenBuffers n ∉
      callsSince World.initial
        (Renderer.InitialiseGeometry Env.loadFails Renderer.zero World.initial).world) :=
  ⟨rfl,
   (InitialiseGeometry_load_failure Env.loadFails Renderer.zero World.initial rfl).1,
   (InitialiseGeometry_load_failure Env.loadFails Renderer.zero World.initial rfl).2.1⟩

/-- C4: InitialiseGeometry returns success exactly when CreateProgram succeeds
and the model loader reports a successful load; when CreateProgram fails the
model loader is not called; and the value returned is the same for every
outcome of the GPU error checks other than the one CreateProgram makes. -/
theorem InitialiseGeometry_result (env : Env) (r : Renderer) (w : World) :
    ((Renderer.InitialiseGeometry env r w).ok = true ↔
      (Renderer.CreateProgram env r w).ok = true ∧ (env.LoadFromFile modelPath).isSome = true) ∧
    ((Renderer.CreateProgram env r w).ok = false →
      (Renderer.InitialiseGeometry env r w).ok = false ∧
      ∀ p b, Call.LoadFromFile p b ∉
        callsSince w (Renderer.InitialiseGeometry env r w).world) ∧
    (∀ check : Nat → Bool, check w.checks = env.CheckForGLError w.checks →
      (Renderer.InitialiseGeometry { env with CheckForGLError := check } r w).ok =
        (Renderer.InitialiseGeometry env r w).ok) := by
  refine ⟨?_, ?_, ?_⟩
  · rw [InitialiseGeometry_ok_eq, Bool.and_eq_true]
  · intro hp
    refine ⟨by rw [InitialiseGeometry_ok_eq, hp]; rfl, ?_⟩
    intro p b
    have h := CreateProgram_no_load env r w p b
    simpa [Renderer.InitialiseGeometry, hp] using h
  · intro check hc
    rw [InitialiseGeometry_ok_eq, InitialiseGeometry_ok_eq, CreateProgram_ok_eq,
      CreateProgram_ok_eq]
    simp [hc]

theorem InitialiseGeometry_result_witness :
    (Renderer.CreateProgram Env.vertexFails Renderer.zero World.initial).ok = false ∧
    (fun _ => true) World.initial.checks ≠
      (Env.good [triangleMesh]).CheckForGLError World.initial.checks ∧
    (fun n => decide (n ≠ 0)) World.initial.checks =
      (Env.good [triangleMesh]).CheckForGLError World.initial.checks ∧
    (Renderer.InitialiseGeometry Env.vertexFails Renderer.zero World.initial).ok = false ∧
    (Renderer.InitialiseGeometry
        { Env.good [triangleMesh] with CheckForGLError := fun n => decide (n ≠ 0) }
        Renderer.zero World.initial).ok =
      (Renderer.InitialiseGeometry (Env.good [triangleMesh]) Renderer.zero World.initial).ok :=
  ⟨by simp [CreateProgram_ok_eq, Env.vertexFails], by decide, by decide,
   ((InitialiseGeometry_result Env.vertexFails Renderer.zero World.initial).2.1
      (by simp [CreateProgram_ok_eq, Env.vertexFails])).1,
   (InitialiseGeometry_result (Env.good [triangleMesh]) Renderer.zero World.initial).2.2
      (fun n => decide (n ≠ 0)) (by decide)⟩

/-! ## Frame draw -/

/-- C6: two Render calls that differ only in the wireframe flag make the same
calls with the same arguments, except for the single polygon-mode call, which
selects line mode for front and back faces exactly when the flag is set and
fill mode for front and back faces otherwise; Render returns the renderer as it
found it. -/
theorem Render_wireframe_flag (env : Env) (r : Renderer) (camera : Camera)
    (deltaTime : GLfloat) (w : World) :
    (∃ before after : List Call,
      (∀ c ∈ before ++ after, c.isPolygonMode = false) ∧
      ∀ flag : Bool,
        callsSince w
            (Renderer.Render env { r with m_wireframe := flag } camera deltaTime w).2 =
          before ++
            Call.glPolygonMode .GL_FRONT_AND_BACK (if flag then .GL_LINE else .GL_FILL) ::
              after) ∧
    (Renderer.Render env r camera deltaTime w).1 = r := by
  refine ⟨⟨[Call.glEnable .GL_DEPTH_TEST, Call.glEnable .GL_CULL_FACE],
    ((callsSince w (Renderer.Render env r camera deltaTime w).2).drop 3), ?_, ?_⟩, rfl⟩
  · rw [Render_calls]
    simp [Call.isPolygonMode]
  · intro flag
    rw [Render_calls, Render_calls]
    simp

/-- C8: Render uploads to the location of the uniform named combined_xform in
the stored program the product of the perspective matrix (field of view
radians(45), aspect ratio viewport width over viewport height as floats, near
1, far 4000) and the look-at matrix (eye the camera position, centre the
position plus the look vector, up the up vector), and to the location of the
uniform named model_xform the matrix mat4(1); both uploads come after the
stored program is activated and before the draw call, and there is no other
upload. -/
theorem Render_uniforms (env : Env) (r : Renderer) (camera : Camera) (deltaTime : GLfloat)
    (w : World) :
    occursBefore (Call.glUseProgram r.m_program)
      (Call.glUniformMatrix4fv (env.glGetUniformLocation r.m_program "combined_xform") 1 false
        (.mul
          (.perspective (.radians (.lit 45))
            (.div (.ofInt w.gl.viewport.2.2.1) (.ofInt w.gl.viewport.2.2.2)) (.lit 1)
            (.lit 4000))
          (.lookAt (.val camera.GetPosition)
            (.add (.val camera.GetPosition) (.val camera.GetLookVector))
            (.val camera.GetUpVector))))
      (callsSince w (Renderer.Render env r camera deltaTime w).2) ∧
    occursBefore
      (Call.glUniformMatrix4fv (env.glGetUniformLocation r.m_program "combined_xform") 1 false
        (.mul
          (.perspective (.radians (.lit 45))
            (.div (.ofInt w.gl.viewport.2.2.1) (.ofInt w.gl.viewport.2.2.2)) (.lit 1)
            (.lit 4000))
          (.lookAt (.val camera.GetPosition)
            (.add (.val camera.GetPosition) (.val camera.GetLookVector))
            (.val camera.GetUpVector))))
      (Call.glDrawElements .GL_TRIANGLES (narrowToGLsizei r.m_numElements) .GL_UNSIGNED_INT 0)
      (callsSince w (Renderer.Render env r camera deltaTime w).2) ∧
    occursBefore (Call.glUseProgram r.m_program)
      (Call.glUniformMatrix4fv (env.glGetUniformLocation r.m_program "model_xform") 1 false
        (.diag (.lit 1)))
      (callsSince w (Renderer.Render env r camera deltaTime w).2) ∧
    occursBefore
      (Call.glUniformMatrix4fv (env.glGetUniformLocation r.m_program "model_xform") 1 false
        (.diag (.lit 1)))
      (Call.glDrawElements .GL_TRIANGLES (narrowToGLsizei r.m_numElements) .GL_UNSIGNED_INT 0)
      (callsSince w (Renderer.Render env r camera deltaTime w).2) ∧
    (callsSince w (Renderer.Render env r camera deltaTime w).2).filter Call.isUniform =
      [Call.glUniformMatrix4fv (env.glGetUniformLocation r.m_program "combined_xform") 1 false
        (.mul
          (.perspective (.radians (.lit 45))
            (.div (.ofInt w.gl.viewport.2.2.1) (.ofInt w.gl.viewport.2.2.2)) (.lit 1)
            (.lit 4000))
          (.lookAt (.val camera.GetPosition)
            (.add (.val camera.GetPosition) (.val camera.GetLookVector))
            (.val camera.GetUpVector))),
       Call.glUniformMatrix4fv (env.glGetUniformLocation r.m_program "model_xform") 1 false
        (.diag (.lit 1))] ∧
    (callsSince w (Renderer.Render env r camera deltaTime w).2).filter Call.isDraw =
      [Call.glDrawElements .GL_TRIANGLES (narrowToGLsizei r.m_numElements) .GL_UNSIGNED_INT 0] := by
  rw [Render_calls]
  refine ⟨⟨6, 8, by simp⟩, ⟨8, 12, by simp⟩, ⟨6, 10, by simp⟩, ⟨10, 12, by simp⟩, ?_, ?_⟩ <;>
    simp [List.filter, Call.isUniform, Call.isDraw]

/-- C10 (as amended): every Render call, after selecting the fill mode and
before the draw call, sets the clear colour to black with alpha 0 (red = green
= blue = alpha = 0) and then clears both the colour buffer and the depth
buffer; it sets no other clear colour. -/
theorem Render_clear (env : Env) (r : Renderer) (camera : Camera) (deltaTime : GLfloat)
    (w : World) :
    occursBefore
      (Call.glPolygonMode .GL_FRONT_AND_BACK (if r.m_wireframe then .GL_LINE else .GL_FILL))
      (Call.glClearColor 0 0 0 0)
      (callsSince w (Renderer.Render env r camera deltaTime w).2) ∧
    occursBefore (Call.glClearColor 0 0 0 0) (Call.glClear true true)
      (callsSince w (Renderer.Render env r camera deltaTime w).2) ∧
    occursBefore (Call.glClear true true)
      (Call.glDrawElements .GL_TRIANGLES (narrowToGLsizei r.m_numElements) .GL_UNSIGNED_INT 0)
      (callsSince w (Renderer.Render env r camera deltaTime w).2) ∧
    (callsSince w (Renderer.Render env r camera deltaTime w).2).filter Call.isClearColor =
      [Call.glClearColor 0 0 0 0] ∧
    (Renderer.Render env r camera deltaTime w).2.gl.clearColor = (0, 0, 0, 0) := by
  rw [Render_calls]
  refine ⟨⟨2, 3, by simp⟩, ⟨3, 4, by simp⟩, ⟨4, 12, by simp⟩, ?_, ?_⟩
  · simp [List.filter, Call.isClearColor]
  · cases hw : r.m_wireframe <;>
      simp [Renderer.Render, glEnable, glPolygonMode, glClearColor, glClear,
        glGetIntegerv_GL_VIEWPORT, glUseProgram, glGetUniformLocation, glUniformMatrix4fv,
        glBindVertexArray, glDrawElements, Helpers.CheckForGLError, hw]

/-- C10 fails as stated: the clear colour Render sets has alpha 0, not 1.  On
the initial world the only clear-colour call is `glClearColor 0 0 0 0`, no
call sets the colour (0, 0, 0, 1), and the alpha left in the context is not
1. -/
theorem clear_colour_alpha_is_zero :
    (callsSince World.initial
        (Renderer.Render (Env.good [cubeMesh]) Renderer.zero cubeCamera 0 World.initial).2).filter
      Call.isClearColor = [Call.glClearColor 0 0 0 0] ∧
    Call.glClearColor 0 0 0 1 ∉
      callsSince World.initial
        (Renderer.Render (Env.good [cubeMesh]) Renderer.zero cubeCamera 0 World.initial).2 ∧
    (Renderer.Render (Env.good [cubeMesh]) Renderer.zero cubeCamera 0
      World.initial).2.gl.clearColor.2.2.2 ≠ 1 := by
  rw [Render_calls]
  refine ⟨by simp [List.filter, Call.isClearColor], by simp, ?_⟩
  simp [Renderer.Render, glEnable, glPolygonMode, glClearColor, glClear,
    glGetIntegerv_GL_VIEWPORT, glUseProgram, glGetUniformLocation, glUniformMatrix4fv,
    glBindVertexArray, glDrawElements, Helpers.CheckForGLError, Renderer.zero]

/-! ## Geometry upload: the layout of each mesh -/

/-- C9: for every mesh of the loaded collection, once InitialiseGeometry has
succeeded, the vertex array generated for that mesh (the k-th one generated,
for the mesh at position k) has slot 0 enabled and sourcing the position
buffer generated for that mesh, slot 1 enabled and sourcing its normal buffer,
each as 3 floats, not normalized, stride 0, offset 0, has its index buffer as
element buffer, and the three buffers (the 3k-th, 3k+1-th and 3k+2-th
generated) hold that mesh's positions, normals and indices. -/
theorem InitialiseGeometry_mesh_layout (env : Env) (r : Renderer) (w : World)
    (before after : List Mesh) (mesh : Mesh)
    (hload : env.LoadFromFile modelPath = some (before ++ mesh :: after))
    (hok : (Renderer.InitialiseGeometry env r w).ok = true) :
    ∃ vao positionVBO normalsVBO elementsEBO : Nat,
      (generatedArrays (callsSince w (Renderer.InitialiseGeometry env r w).world))[before.length]?
        = some vao ∧
      (generatedBuffers
          (callsSince w (Renderer.InitialiseGeometry env r w).world))[3 * before.length]?
        = some positionVBO ∧
      (generatedBuffers
          (callsSince w (Renderer.InitialiseGeometry env r w).world))[3 * before.length + 1]?
        = some normalsVBO ∧
      (generatedBuffers
          (callsSince w (Renderer.InitialiseGeometry env r w).world))[3 * before.length + 2]?
        = some elementsEBO ∧
      ((Renderer.InitialiseGeometry env r w).world.gl.arrays vao).attribs 0 =
        { enabled := true, buffer := positionVBO, size := 3, type := .GL_FLOAT,
          normalized := false, stride := 0, offset := 0 } ∧
      ((Renderer.InitialiseGeometry env r w).world.gl.arrays vao).attribs 1 =
        { enabled := true, buffer := normalsVBO, size := 3, type := .GL_FLOAT,
          normalized := false, stride := 0, offset := 0 } ∧
      ((Renderer.InitialiseGeometry env r w).world.gl.arrays vao).elementBuffer = elementsEBO ∧
      (Renderer.InitialiseGeometry env r w).world.gl.buffers positionVBO =
        some (.floats3 mesh.vertices) ∧
      (Renderer.InitialiseGeometry env r w).world.gl.buffers normalsVBO =
        some (.floats3 mesh.normals) ∧
      (Renderer.InitialiseGeometry env r w).world.gl.buffers elementsEBO =
        some (.uints mesh.elements) := by
  obtain ⟨_, hgl, _⟩ := InitialiseGeometry_success env r w _ hload hok
  obtain ⟨ga, gb⟩ := InitialiseGeometry_generated env r w _ hload hok
  obtain ⟨s1, s2, _⟩ := loopStart_frame env r w
  obtain ⟨k1, k2⟩ := loop_counts env before (loopStart env r w)
  obtain ⟨c1, c2, c3⟩ := body_counts env
    (Renderer.InitialiseGeometry.loop env before (loopStart env r w)) mesh
  obtain ⟨l0, l1, le, _, bp, bn, be⟩ := body_layout env
    (Renderer.InitialiseGeometry.loop env before (loopStart env r w)) mesh
  obtain ⟨_, pa, pb⟩ := loop_preserves env after
    (Renderer.InitialiseGeometry.body env
      (Renderer.InitialiseGeometry.loop env before (loopStart env r w)) mesh) c3
  have hlen : (before ++ mesh :: after).length = before.length + after.length + 1 := by
    simp only [List.length_append, List.length_cons]; omega
  rw [hgl, loop_append, loop_cons, ga, gb, hlen]
  rw [k1, s1] at l0 l1 le c1
  rw [k2, s2] at l0 l1 le bp bn be c2
  refine ⟨w.gl.arrayCount + before.length + 1, w.gl.bufferCount + 3 * before.length + 1,
    w.gl.bufferCount + 3 * before.length + 2, w.gl.bufferCount + 3 * before.length + 3,
    ?_, ?_, ?_, ?_, ?_, ?_, ?_, ?_, ?_, ?_⟩
  · rw [List.getElem?_range' _ _ (by omega)]; simp; omega
  · rw [List.getElem?_range' _ _ (by omega)]; simp; omega
  · rw [List.getElem?_range' _ _ (by omega)]; simp; omega
  · rw [List.getElem?_range' _ _ (by omega)]; simp; omega
  · rw [pa _ (by omega) (by omega), l0]
  · rw [pa _ (by omega) (by omega), l1]
  · rw [pa _ (by omega) (by omega), le]
  · rw [pb _ (by omega), bp]
  · rw [pb _ (by omega), bn]
  · rw [pb _ (by omega), be]

theorem InitialiseGeometry_mesh_layout_witness :
    (Env.good [triangleMesh, cubeMesh]).LoadFromFile modelPath
      = some ([triangleMesh] ++ cubeMesh :: []) ∧
    (Renderer.InitialiseGeometry (Env.good [triangleMesh, cubeMesh]) Renderer.zero
      World.initial).ok = true ∧
    ∃ vao positionVBO normalsVBO elementsEBO : Nat,
      (generatedArrays (callsSince World.initial
        (Renderer.InitialiseGeometry (Env.good [triangleMesh, cubeMesh]) Renderer.zero
          World.initial).world))[[triangleMesh].length]? = some vao ∧
      (generatedBuffers (callsSince World.initial
        (Renderer.InitialiseGeometry (Env.good [triangleMesh, cubeMesh]) Renderer.zero
          World.initial).world))[3 * [triangleMesh].length]? = some positionVBO ∧
      (generatedBuffers (callsSince World.initial
        (Renderer.InitialiseGeometry (Env.good [triangleMesh, cubeMesh]) Renderer.zero
          World.initial).world))[3 * [triangleMesh].length + 1]? = some normalsVBO ∧
      (generatedBuffers (callsSince World.initial
        (Renderer.InitialiseGeometry (Env.good [triangleMesh, cubeMesh]) Renderer.zero
          World.initial).world))[3 * [triangleMesh].length + 2]? = some elementsEBO ∧
      ((Renderer.InitialiseGeometry (Env.good [triangleMesh, cubeMesh]) Renderer.zero
        World.initial).world.gl.arrays vao).attribs 0 =
        { enabled := true, buffer := positionVBO, size := 3, type := .GL_FLOAT,
          normalized := false, stride := 0, offset := 0 } ∧
      ((Renderer.InitialiseGeometry (Env.good [triangleMesh, cubeMesh]) Renderer.zero
        World.initial).world.gl.arrays vao).attribs 1 =
        { enabled := true, buffer := normalsVBO, size := 3, type := .GL_FLOAT,
          normalized := false, stride := 0, offset := 0 } ∧
      ((Renderer.InitialiseGeometry (Env.good [triangleMesh, cubeMesh]) Renderer.zero
        World.initial).world.gl.arrays vao).elementBuffer = elementsEBO ∧
      (Renderer.InitialiseGeometry (Env.good [triangleMesh, cubeMesh]) Renderer.zero
        World.initial).world.gl.buffers positionVBO = some (.floats3 cubeMesh.vertices) ∧
      (Renderer.InitialiseGeometry (Env.good [triangleMesh, cubeMesh]) Renderer.zero
        World.initial).world.gl.buffers normalsVBO = some (.floats3 cubeMesh.normals) ∧
      (Renderer.InitialiseGeometry (Env.good [triangleMesh, cubeMesh]) Renderer.zero
        World.initial).world.gl.buffers elementsEBO = some (.uints cubeMesh.elements) :=
  ⟨rfl, by simp [InitialiseGeometry_ok_eq, CreateProgram_ok_eq, Env.good],
   InitialiseGeometry_mesh_layout (Env.good [triangleMesh, cubeMesh]) Renderer.zero
     World.initial [triangleMesh] [] cubeMesh rfl
     (by simp [InitialiseGeometry_ok_eq, CreateProgram_ok_eq, Env.good])⟩

/-! ## Drawing the uploaded geometry -/

/-- A count below 2^31 passes through both conversions unchanged. -/
theorem narrowToGLsizei_of_lt (n : Nat) (h : n < 2 ^ 31) :
    narrowToGLsizei (narrowToGLuint n) = (n : Int) := by
  have h1 : n < 2147483648 := by simpa using h
  have h2 : n % 4294967296 = n := Nat.mod_eq_of_lt (by omega)
  simp [narrowToGLsizei, narrowToGLuint, h2, h1]

/-- After InitialiseGeometry has succeeded on a collection ending in `last`,
the layout handle stored is the vertex array generated last, and every Render
call made after any sequence of DefineGUI and Render calls binds that handle
and then makes exactly one draw call, whose count is the number of index
values of `last` after the two integer conversions. -/
theorem Render_after_InitialiseGeometry (env : Env) (r : Renderer) (w : World)
    (meshes : List Mesh) (last : Mesh)
    (hload : env.LoadFromFile modelPath = some (meshes ++ [last]))
    (hok : (Renderer.InitialiseGeometry env r w).ok = true)
    (later : List MemberCall) (camera : Camera) (deltaTime : GLfloat) :
    (generatedArrays (callsSince w (Renderer.InitialiseGeometry env r w).world)).getLast? =
      some (Renderer.InitialiseGeometry env r w).renderer.m_VAO ∧
    (generatedArrays (callsSince w (Renderer.InitialiseGeometry env r w).world))[meshes.length]?
      = some (Renderer.InitialiseGeometry env r w).renderer.m_VAO ∧
    occursBefore
      (Call.glBindVertexArray (Renderer.InitialiseGeometry env r w).renderer.m_VAO)
      (Call.glDrawElements .GL_TRIANGLES
        (narrowToGLsizei (narrowToGLuint last.elements.length)) .GL_UNSIGNED_INT 0)
      (callsSince
        (Renderer.run env later
          ((Renderer.InitialiseGeometry env r w).renderer,
           (Renderer.InitialiseGeometry env r w).world)).2
        (Renderer.Render env
          (Renderer.run env later
            ((Renderer.InitialiseGeometry env r w).renderer,
             (Renderer.InitialiseGeometry env r w).world)).1
          camera deltaTime
          (Renderer.run env later
            ((Renderer.InitialiseGeometry env r w).renderer,
             (Renderer.InitialiseGeometry env r w).world)).2).2) ∧
    (callsSince
        (Renderer.run env later
          ((Renderer.InitialiseGeometry env r w).renderer,
           (Renderer.InitialiseGeometry env r w).world)).2
        (Renderer.Render env
          (Renderer.run env later
            ((Renderer.InitialiseGeometry env r w).renderer,
             (Renderer.InitialiseGeometry env r w).world)).1
          camera deltaTime
          (Renderer.run env later
            ((Renderer.InitialiseGeometry env r w).renderer,
             (Renderer.InitialiseGeometry env r w).world)).2).2).filter Call.isDraw =
      [Call.glDrawElements .GL_TRIANGLES
        (narrowToGLsizei (narrowToGLuint last.elements.length)) .GL_UNSIGNED_INT 0] := by
  obtain ⟨hv, hn⟩ := InitialiseGeometry_stored env r w meshes last hload hok
  obtain ⟨ga, _⟩ := InitialiseGeometry_generated env r w _ hload hok
  obtain ⟨_, fv, fn⟩ := run_fields env later
    ((Renderer.InitialiseGeometry env r w).renderer, (Renderer.InitialiseGeometry env r w).world)
  have hlen : (meshes ++ [last]).length = meshes.length + 1 := by simp
  rw [Render_calls, fv, fn, ga, hv, hn, hlen]
  refine ⟨?_, ?_, ⟨11, 12, by simp⟩, by simp [List.filter, Call.isDraw]⟩
  · rw [List.getLast?_range']; simp; omega
  · rw [List.getElem?_range' _ _ (by omega)]; simp; omega

/-- C5 (as amended): after InitialiseGeometry has succeeded on a non-empty mesh
collection whose last mesh has fewer than 2^31 index values, the layout handle
stored is the vertex array generated last, for the last mesh, and every Render
call made after any sequence of DefineGUI and Render calls binds that handle
and then makes exactly one draw call: indexed triangles, count the number of
index values of the last mesh, index type unsigned int, offset 0. -/
theorem Render_draws_last_mesh (env : Env) (r : Renderer) (w : World)
    (meshes : List Mesh) (last : Mesh)
    (hload : env.LoadFromFile modelPath = some (meshes ++ [last]))
    (hok : (Renderer.InitialiseGeometry env r w).ok = true)
    (hsize : last.elements.length < 2 ^ 31)
    (later : List MemberCall) (camera : Camera) (deltaTime : GLfloat) :
    (generatedArrays (callsSince w (Renderer.InitialiseGeometry env r w).world)).getLast? =
      some (Renderer.InitialiseGeometry env r w).renderer.m_VAO ∧
    (generatedArrays (callsSince w (Renderer.InitialiseGeometry env r w).world))[meshes.length]?
      = some (Renderer.InitialiseGeometry env r w).renderer.m_VAO ∧
    occursBefore
      (Call.glBindVertexArray (Renderer.InitialiseGeometry env r w).renderer.m_VAO)
      (Call.glDrawElements .GL_TRIANGLES (last.elements.length : Int) .GL_UNSIGNED_INT 0)
      (callsSince
        (Renderer.run env later
          ((Renderer.InitialiseGeometry env r w).renderer,
           (Renderer.InitialiseGeometry env r w).world)).2
        (Renderer.Render env
          (Renderer.run env later
            ((Renderer.InitialiseGeometry env r w).renderer,
             (Renderer.InitialiseGeometry env r w).world)).1
          camera deltaTime
          (Renderer.run env later
            ((Renderer.InitialiseGeometry env r w).renderer,
             (Renderer.InitialiseGeometry env r w).world)).2).2) ∧
    (callsSince
        (Renderer.run env later
          ((Renderer.InitialiseGeometry env r w).renderer,
           (Renderer.InitialiseGeometry env r w).world)).2
        (Renderer.Render env
          (Renderer.run env later
            ((Renderer.InitialiseGeometry env r w).renderer,
             (Renderer.InitialiseGeometry env r w).world)).1
          camera deltaTime
          (Renderer.run env later
            ((Renderer.InitialiseGeometry env r w).renderer,
             (Renderer.InitialiseGeometry env r w).world)).2).2).filter Call.isDraw =
      [Call.glDrawElements .GL_TRIANGLES (last.elements.length : Int) .GL_UNSIGNED_INT 0] := by
  have h := Render_after_InitialiseGeometry env r w meshes last hload hok later camera deltaTime
  rw [narrowToGLsizei_of_lt _ hsize] at h
  exact h

theorem Render_draws_last_mesh_witness :
    (Env.good [triangleMesh, cubeMesh]).LoadFromFile modelPath
      = some ([triangleMesh] ++ [cubeMesh]) ∧
    (Renderer.InitialiseGeometry (Env.good [triangleMesh, cubeMesh]) Renderer.zero
      World.initial).ok = true ∧
    cubeMesh.elements.length < 2 ^ 31 ∧
    (Renderer.InitialiseGeometry (Env.good [triangleMesh, cubeMesh]) Renderer.zero
      World.initial).renderer.m_VAO = 2 ∧
    (callsSince
        (Renderer.run (Env.good [triangleMesh, cubeMesh]) earlierFrame
          ((Renderer.InitialiseGeometry (Env.good [triangleMesh, cubeMesh]) Renderer.zero
              World.initial).renderer,
           (Renderer.InitialiseGeometry (Env.good [triangleMesh, cubeMesh]) Renderer.zero
              World.initial).world)).2
        (Renderer.Render (Env.good [triangleMesh, cubeMesh])
          (Renderer.run (Env.good [triangleMesh, cubeMesh]) earlierFrame
            ((Renderer.InitialiseGeometry (Env.good [triangleMesh, cubeMesh]) Renderer.zero
                World.initial).renderer,
             (Renderer.InitialiseGeometry (Env.good [triangleMesh, cubeMesh]) Renderer.zero
                World.initial).world)).1
          cubeCamera 0
          (Renderer.run (Env.good [triangleMesh, cubeMesh]) earlierFrame
            ((Renderer.InitialiseGeometry (Env.good [triangleMesh, cubeMesh]) Renderer.zero
                World.initial).renderer,
             (Renderer.InitialiseGeometry (Env.good [triangleMesh, cubeMesh]) Renderer.zero
                World.initial).world)).2).2).filter Call.isDraw =
      [Call.glDrawElements .GL_TRIANGLES 36 .GL_UNSIGNED_INT 0] :=
  ⟨rfl, by simp [InitialiseGeometry_ok_eq, CreateProgram_ok_eq, Env.good], by decide, rfl,
   (Render_draws_last_mesh (Env.good [triangleMesh, cubeMesh]) Renderer.zero World.initial
     [triangleMesh] cubeMesh rfl
     (by simp [InitialiseGeometry_ok_eq, CreateProgram_ok_eq, Env.good]) (by decide)
     earlierFrame cubeCamera 0).2.2.2⟩

/-- C5 fails as stated: the model file holds one mesh with 3000000000 index
values, InitialiseGeometry succeeds, and the one draw call of the next Render
call has count -1294967296, not 3000000000. -/
theorem draw_count_wraps_negative :
    (Renderer.InitialiseGeometry (Env.good [hugeMesh]) Renderer.zero World.initial).ok = true ∧
    hugeMesh.elements.length = 3000000000 ∧
    (callsSince
        (Renderer.run (Env.good [hugeMesh]) []
          ((Renderer.InitialiseGeometry (Env.good [hugeMesh]) Renderer.zero World.initial).renderer,
           (Renderer.InitialiseGeometry (Env.good [hugeMesh]) Renderer.zero World.initial).world)).2
        (Renderer.Render (Env.good [hugeMesh])
          (Renderer.run (Env.good [hugeMesh]) []
            ((Renderer.InitialiseGeometry (Env.good [hugeMesh]) Renderer.zero
                World.initial).renderer,
             (Renderer.InitialiseGeometry (Env.good [hugeMesh]) Renderer.zero
                World.initial).world)).1
          cubeCamera 0
          (Renderer.run (Env.good [hugeMesh]) []
            ((Renderer.InitialiseGeometry (Env.good [hugeMesh]) Renderer.zero
                World.initial).renderer,
             (Renderer.InitialiseGeometry (Env.good [hugeMesh]) Renderer.zero
                World.initial).world)).2).2).filter Call.isDraw =
      [Call.glDrawElements .GL_TRIANGLES (-1294967296) .GL_UNSIGNED_INT 0] := by
  have hok : (Renderer.InitialiseGeometry (Env.good [hugeMesh]) Renderer.zero
      World.initial).ok = true := by
    simp [InitialiseGeometry_ok_eq, CreateProgram_ok_eq, Env.good]
  have hlen : hugeMesh.elements.length = 3000000000 := List.length_replicate _ _
  have hload : (Env.good [hugeMesh]).LoadFromFile modelPath = some ([] ++ [hugeMesh]) := rfl
  have h := (Render_after_InitialiseGeometry (Env.good [hugeMesh]) Renderer.zero World.initial
    [] hugeMesh hload hok [] cubeCamera 0).2.2.2
  have hwrap : narrowToGLsizei (narrowToGLuint 3000000000) = -1294967296 := by decide
  rw [hlen, hwrap] at h
  exact ⟨hok, hlen, h⟩

/-! ## Teardown -/

/-- C7 fails on the code: after a successful InitialiseGeometry on a single
triangle mesh and the destructor, with no Render call in between, the
destructor has made a program deletion and a buffer deletion with the vertex
array name; no vertex array deletion was made, the vertex array is still live,
and the normal and the index buffer are still live. -/
theorem destructor_leaves_handles_live :
    (Renderer.InitialiseGeometry (Env.good [triangleMesh]) Renderer.zero World.initial).ok
      = true ∧
    generatedBuffers
      (Renderer.InitialiseGeometry (Env.good [triangleMesh]) Renderer.zero
        World.initial).world.trace = [1, 2, 3] ∧
    generatedArrays
      (Renderer.InitialiseGeometry (Env.good [triangleMesh]) Renderer.zero
        World.initial).world.trace = [1] ∧
    callsSince
      (Renderer.InitialiseGeometry (Env.good [triangleMesh]) Renderer.zero World.initial).world
      (Renderer.destructor
        (Renderer.InitialiseGeometry (Env.good [triangleMesh]) Renderer.zero
          World.initial).renderer
        (Renderer.InitialiseGeometry (Env.good [triangleMesh]) Renderer.zero
          World.initial).world) = [Call.glDeleteProgram 1, Call.glDeleteBuffers 1] ∧
    ((Renderer.destructor
        (Renderer.InitialiseGeometry (Env.good [triangleMesh]) Renderer.zero
          World.initial).renderer
        (Renderer.InitialiseGeometry (Env.good [triangleMesh]) Renderer.zero
          World.initial).world).gl.arrays 1).live = true ∧
    (Renderer.destructor
        (Renderer.InitialiseGeometry (Env.good [triangleMesh]) Renderer.zero
          World.initial).renderer
        (Renderer.InitialiseGeometry (Env.good [triangleMesh]) Renderer.zero
          World.initial).world).gl.buffers 2 = some (.floats3 triangleMesh.normals) ∧
    (Renderer.destructor
        (Renderer.InitialiseGeometry (Env.good [triangleMesh]) Renderer.zero
          World.initial).renderer
        (Renderer.InitialiseGeometry (Env.good [triangleMesh]) Renderer.zero
          World.initial).world).gl.buffers 3 = some (.uints triangleMesh.elements) := by
  refine ⟨?_, ?_, ?_, ?_, ?_, ?_, ?_⟩ <;> rfl

end ThreeGP
